import Mathlib

set_option maxHeartbeats 1000000

/-!
Verification of `src/update_journey_data.py` (TfL journey-planner script).

The script is embedded shallowly:

* Python `datetime` values (as produced by `datetime.fromisoformat` /
  `datetime.strptime`) become `PyDateTime`: a day index, wall-clock fields and
  a timezone-awareness flag (subtracting an aware from a naive datetime
  raises `TypeError` in Python, modelled as `Except.error`).
* Upstream JSON records become explicit structures (`InJourney`, `InLeg`,
  `Arrival`, ...) whose `Option` fields model absent keys, with the
  `dict.get` defaults of the script applied where the script applies them.
* The network is reified as parameters: `gp : Nat -> FetchResult` gives the
  result of the `get_journey_plan` call made at each retry offset, `arrivals`
  the data behind `get_arrivals_for_station` (both script calls query the
  same Clapham Junction stop), `now` the value of `datetime.now()`.
* Exceptions that the script can raise inside the per-journey `try` block
  (`IndexError` on an empty `routeOptions` list, `TypeError` on mixed
  aware/naive subtraction) are modelled with `Except Unit`.
* String operations (`lower`, `split`, `strip`, `replace`, `in`,
  `str.isdigit`/`isalpha`) are re-implemented over the character list of a
  `String` by structural recursion so that every theorem below can be checked
  by evaluation.
-/

/-- Python string `lower()` (ASCII case folding). -/
def pyLower (s : String) : String := String.mk (s.data.map Char.toLower)

/-- Python substring test over character lists: `needle in hay`. -/
def containsCL (needle : List Char) : List Char → Bool
  | [] => List.isPrefixOf needle []
  | c :: rest => List.isPrefixOf needle (c :: rest) || containsCL needle rest

/-- Python `needle in hay` on strings. -/
def strContains (hay needle : String) : Bool := containsCL needle.data hay.data

/-- Core of Python `str.split(sep)`: the `Nat` argument counts separator
characters still to be consumed after a match. -/
def splitCL (pat : List Char) : List Char → Nat → List (List Char)
  | [], _ => [[]]
  | _ :: cs, Nat.succ k => splitCL pat cs k
  | c :: cs, 0 =>
    if List.isPrefixOf pat (c :: cs) then
      [] :: splitCL pat cs (pat.length - 1)
    else
      match splitCL pat cs 0 with
      | h :: t => (c :: h) :: t
      | [] => [[c]]

/-- Python `s.split(sep)` for a non-empty separator. -/
def pySplit (s sep : String) : List String :=
  (splitCL sep.data s.data 0).map String.mk

/-- Python `s.strip()`. -/
def pyStrip (s : String) : String :=
  String.mk
    (((s.data.dropWhile Char.isWhitespace).reverse.dropWhile
        Char.isWhitespace).reverse)

/-- Core of Python `str.replace`: replaces every non-overlapping occurrence,
left to right. -/
def replaceCL (pat repl : List Char) : List Char → Nat → List Char
  | [], _ => []
  | _ :: cs, Nat.succ k => replaceCL pat repl cs k
  | c :: cs, 0 =>
    if List.isPrefixOf pat (c :: cs) then
      repl ++ replaceCL pat repl cs (pat.length - 1)
    else
      c :: replaceCL pat repl cs 0

/-- Python `s.replace(pat, repl)` for a non-empty pattern. -/
def pyReplace (s pat repl : String) : String :=
  String.mk (replaceCL pat.data repl.data s.data 0)

/-- Decimal digit parse used to model `strptime` field conversion. -/
def digitsToNat? (cs : List Char) : Option Nat :=
  if cs ≠ [] && cs.all Char.isDigit then
    some (cs.foldl (fun n c => n * 10 + (c.toNat - 48)) 0)
  else none

/-- Two-digit zero padding, as in `strftime`. -/
def pad2 (n : Nat) : String :=
  if n < 10 then "0" ++ toString n else toString n

/-- Python `datetime` value: calendar day index, wall-clock fields, and
whether the value carries timezone information. -/
structure PyDateTime where
  day : Int
  hour : Nat
  minute : Nat
  second : Nat
  aware : Bool
deriving DecidableEq, Repr

/-- Absolute second count of a datetime, used for Python datetime
subtraction (`total_seconds()`). -/
def PyDateTime.totalSeconds (d : PyDateTime) : Int :=
  d.day * 86400 + (d.hour : Int) * 3600 + (d.minute : Int) * 60 + (d.second : Int)

/-- An upstream datetime string, abstracted by whether
`datetime.fromisoformat` (after the script's `'Z' -> '+00:00'` replacement)
accepts it and, if so, which value it yields. -/
inductive DtStr where
  | invalid
  | valid (d : PyDateTime)
deriving DecidableEq, Repr

/-- The script's `parse_datetime`: `fromisoformat` wrapped in
`try/except (ValueError, AttributeError)`; an absent field (`None`) hits the
`AttributeError` branch. -/
def parse_datetime : Option DtStr → Option PyDateTime
  | none => none
  | some DtStr.invalid => none
  | some (DtStr.valid d) => some d

/-- The script's `format_time`: `strftime("%H:%M")`, or `"N/A"` for `None`. -/
def format_time : Option PyDateTime → String
  | some d => pad2 d.hour ++ ":" ++ pad2 d.minute
  | none => "N/A"

/-- Rendering `strftime("%H:%M:%S")`, used for the `live_updated_at` field. -/
def fmtHMS (d : PyDateTime) : String :=
  pad2 d.hour ++ ":" ++ pad2 d.minute ++ ":" ++ pad2 d.second

/-- Model of `datetime.strptime(s, "%H:%M")`, reduced to the hour/minute pair: each
field is one or two digits, hour below 24, minute below 60, nothing left
over. -/
def strptimeHM (s : String) : Option (Nat × Nat) :=
  match pySplit s ":" with
  | [h, m] =>
    if 1 ≤ h.data.length && h.data.length ≤ 2
        && 1 ≤ m.data.length && m.data.length ≤ 2 then
      match digitsToNat? h.data, digitsToNat? m.data with
      | some hh, some mm =>
        if hh < 24 && mm < 60 then some (hh, mm) else none
      | _, _ => none
    else none
  | _ => none

/-- One entry of a journey leg's `routeOptions` array. -/
structure RouteOption where
  name : Option String
deriving DecidableEq, Repr

/-- One leg of an upstream journey. `modeName` is
`leg.get('mode', {}).get('name', '')`, `instructionSummary` is
`leg.get('instruction', {}).get('summary', '')`, `stopPointNames` the names
of `leg.get('path', {}).get('stopPoints', [])`, `routeOptions` is `none`
when the key is absent (the script's `[{}]` default then applies), and the
two flags are the truthiness of `leg.get('disruptions')` /
`leg.get('isDisrupted')`. -/
structure InLeg where
  modeName : String
  departureTime : Option DtStr
  arrivalTime : Option DtStr
  instructionSummary : String
  routeOptions : Option (List RouteOption)
  stopPointNames : List String
  hasDisruptions : Bool
  isDisrupted : Bool
deriving DecidableEq, Repr

/-- An upstream journey record. `duration` is `none` when the key is absent
(the script's `journey.get('duration', 0)` default then applies). -/
structure InJourney where
  startDateTime : Option DtStr
  arrivalDateTime : Option DtStr
  duration : Option Int
  legs : List InLeg
deriving DecidableEq, Repr

/-- One record of the live-arrivals feed used by
`get_platform_from_arrivals`: `lineName` and `platformName` carry the
script's `''` defaults, `expectedArrival` is the raw datetime string. -/
structure Arrival where
  lineName : String
  expectedArrival : Option DtStr
  platformName : String
deriving DecidableEq, Repr

/-- Result of one `get_journey_plan` call as seen by
`fetch_and_process_tfl_data`: `failed` covers a caught request exception
(the function returns `None`) or a falsy response, `noJourneysKey` a truthy
response without a `'journeys'` key. -/
inductive FetchResult where
  | failed
  | noJourneysKey
  | ok (journeys : List InJourney)
deriving DecidableEq, Repr

/-- Whether a `get_journey_plan` call produced a usable journey list. -/
def FetchResult.isOk : FetchResult → Bool
  | FetchResult.ok _ => true
  | _ => false

/-- A rail entry of the output `legs` array. `platform` is the
`arrivalPlatform` key for the first leg and the `departurePlatform` key for
the second. -/
structure RailOut where
  origin : String
  destination : String
  departure : String
  arrival : String
  platform : String
  operator : String
  status : String
deriving DecidableEq, Repr

/-- An entry of the output `legs` array: a rail leg or the transfer record. -/
inductive LegOut where
  | rail (r : RailOut)
  | transfer (location : String) (transferTime : String)
deriving DecidableEq, Repr

/-- One journey of the output JSON array. -/
structure OutJourney where
  id : Nat
  departureTime : String
  arrivalTime : String
  totalDuration : String
  status : String
  live_updated_at : String
  legs : List LegOut
deriving DecidableEq, Repr

/-- The character loop of `extract_platform_from_instruction`: append
alphanumerics, stop at the first non-alphanumeric once at least one was
collected, skip non-alphanumerics before that. -/
def collectAlnum : List Char → List Char → List Char
  | [], acc => acc.reverse
  | c :: cs, acc =>
    if c.isDigit || c.isAlpha then collectAlnum cs (c :: acc)
    else if acc ≠ [] then acc.reverse
    else collectAlnum cs acc

/-- The script's `extract_platform_from_instruction`: if `'platform'` occurs in the
lowered summary, take the text after its first occurrence (up to the next
occurrence), strip it, and collect the leading alphanumeric run after
skipping non-alphanumeric characters. -/
def extract_platform_from_instruction (instruction_summary : String) : Option String :=
  let lower := pyLower instruction_summary
  if strContains lower "platform" then
    match pySplit lower "platform" with
    | _ :: p1 :: _ =>
      let after := pyStrip p1
      let platform := collectAlnum after.data []
      if platform ≠ [] then some (String.mk platform) else none
    | _ => none
  else none

/-- The arrival-scanning loop of `get_platform_from_arrivals`. An aware
expected-arrival time cannot be subtracted from the naive target
(`TypeError`), which the inner `except` turns into `continue`; a falsy or
unparseable `expectedArrival` is also skipped; a non-empty `platformName`
within two minutes of the target is returned with `'Platform '` removed and
whitespace stripped. -/
def find_platform (target : PyDateTime) (line_name : String) : List Arrival → Option String
  | [] => none
  | a :: rest =>
    if strContains (pyLower a.lineName) (pyLower line_name) then
      match a.expectedArrival with
      | some (DtStr.valid adt) =>
        if adt.aware == target.aware then
          if (adt.totalSeconds - target.totalSeconds).natAbs ≤ 120 then
            if a.platformName == "" then find_platform target line_name rest
            else some (pyStrip (pyReplace a.platformName "Platform " ""))
          else find_platform target line_name rest
        else find_platform target line_name rest
      | _ => find_platform target line_name rest
    else find_platform target line_name rest

/-- The script's `get_platform_from_arrivals`: parse the `"%H:%M"` departure string, move
it onto the current date (`datetime.now()`), and scan the arrivals feed. -/
def get_platform_from_arrivals (arrivals : List Arrival) (line_name : String)
    (departure_time : String) (now : PyDateTime) : Option String :=
  match strptimeHM departure_time with
  | none => none
  | some hm => find_platform ⟨now.day, hm.1, hm.2, 0, false⟩ line_name arrivals

/-- The per-leg platform computation of `process_journey`:
`extract_platform_from_instruction` first, else the live-arrivals lookup
whose line name is `leg.get('routeOptions', [{}])[0].get('name', dflt)`.
A present but empty `routeOptions` list makes that indexing raise
`IndexError`, modelled as `Except.error`. -/
def leg_platform (arrivals : List Arrival) (now : PyDateTime) (leg : InLeg)
    (dflt : String) (timeStr : String) : Except Unit (Option String) :=
  match extract_platform_from_instruction leg.instructionSummary with
  | some p => Except.ok (some p)
  | none =>
    match leg.routeOptions with
    | none => Except.ok (get_platform_from_arrivals arrivals dflt timeStr now)
    | some [] => Except.error ()
    | some (r :: _) =>
      Except.ok (get_platform_from_arrivals arrivals (r.name.getD dflt) timeStr now)

/-- The transfer-time computation of `process_journey`:
`int((leg2_depart - leg1_arrive).total_seconds() / 60)` when both times
parsed (truncation toward zero; `TypeError` when exactly one is aware),
`0` otherwise. -/
def transfer_calc (leg1_arrive leg2_depart : Option PyDateTime) : Except Unit Int :=
  match leg1_arrive, leg2_depart with
  | some a, some d =>
    if a.aware == d.aware then
      Except.ok (Int.tdiv (d.totalSeconds - a.totalSeconds) 60)
    else Except.error ()
  | _, _ => Except.ok 0

/-- The status loop of `process_journey` over all legs: the first leg with
truthy `disruptions` gives `"Disruption"`, else the first with truthy
`isDisrupted` gives `"Delayed"`, checked per leg in that order. -/
def statusOfLegs : List InLeg → String
  | [] => "On Time"
  | l :: rest =>
    if l.hasDisruptions then "Disruption"
    else if l.isDisrupted then "Delayed"
    else statusOfLegs rest

/-- The operator-name extraction of `process_journey`:
`route[0].get('name', 'Rail') if route else 'Rail'` over
`leg.get('routeOptions', [])`. -/
def lineNameOf (ro : Option (List RouteOption)) : String :=
  match ro.getD [] with
  | [] => "Rail"
  | r :: _ => r.name.getD "Rail"

/-- Python `x or dflt` on an optional string: `None` and `''` are falsy. -/
def pyOrStr (o : Option String) (dflt : String) : String :=
  match o with
  | none => dflt
  | some s => if s == "" then dflt else s

/-- The rail-leg filter of `process_journey`:
`mode_name not in ['walking', 'walk']`. -/
def railLegs (journey : InJourney) : List InLeg :=
  journey.legs.filter (fun l => !(l.modeName == "walking" || l.modeName == "walk"))

/-- The script's `check_journey_via_clapham`: some leg mentions Clapham Junction in its
instruction summary or among its path stop points. -/
def check_journey_via_clapham (journey : InJourney) : Bool :=
  journey.legs.any (fun leg =>
    strContains leg.instructionSummary "Clapham Junction" ||
      leg.stopPointNames.any (fun n => strContains n "Clapham Junction"))

/-- The output record built at the end of `process_journey`. -/
def buildOutput (journey : InJourney) (journey_id : Nat) (now : PyDateTime)
    (leg1 leg2 : InLeg) (p1 p2 : Option String) (transfer_mins : Int) : OutJourney :=
  let status := statusOfLegs journey.legs
  { id := journey_id
    departureTime := format_time (parse_datetime journey.startDateTime)
    arrivalTime := format_time (parse_datetime journey.arrivalDateTime)
    totalDuration := toString (journey.duration.getD 0) ++ " min"
    status := status
    live_updated_at := fmtHMS now
    legs := [
      LegOut.rail
        { origin := "Streatham Common"
          destination := "Clapham Junction"
          departure := format_time (parse_datetime leg1.departureTime)
          arrival := format_time (parse_datetime leg1.arrivalTime)
          platform := pyOrStr p1 "TBC"
          operator := lineNameOf leg1.routeOptions
          status := status },
      LegOut.transfer "Clapham Junction" (toString transfer_mins ++ " min"),
      LegOut.rail
        { origin := "Clapham Junction"
          destination := "Imperial Wharf"
          departure := format_time (parse_datetime leg2.departureTime)
          arrival := format_time (parse_datetime leg2.arrivalTime)
          platform := pyOrStr p2 "TBC"
          operator := lineNameOf leg2.routeOptions
          status := status } ] }

/-- The script's `process_journey`: `Except.ok none` models returning `None` (fewer than
two rail legs), `Except.error ()` models an exception escaping to the
caller's `except` block. -/
def process_journey (arrivals : List Arrival) (now : PyDateTime)
    (journey : InJourney) (journey_id : Nat) : Except Unit (Option OutJourney) :=
  match railLegs journey with
  | leg1 :: leg2 :: _ =>
    match leg_platform arrivals now leg1 "Southern"
        (format_time (parse_datetime leg1.arrivalTime)) with
    | Except.error e => Except.error e
    | Except.ok p1 =>
      match leg_platform arrivals now leg2 "London Overground"
          (format_time (parse_datetime leg2.departureTime)) with
      | Except.error e => Except.error e
      | Except.ok p2 =>
        match transfer_calc (parse_datetime leg1.arrivalTime)
            (parse_datetime leg2.departureTime) with
        | Except.error e => Except.error e
        | Except.ok transfer_mins =>
          Except.ok (some (buildOutput journey journey_id now leg1 leg2 p1 p2 transfer_mins))
  | _ => Except.ok none

/-- The inner journey loop of `fetch_and_process_tfl_data`: filter to
journeys via Clapham Junction, skip departure times already accepted,
process, append, and stop once `num_journeys` are collected (the length
check sits directly after an append, as in the script). The surrounding
`try/except` turns any `process_journey` exception into a skip. -/
def processJourneys (arrivals : List Arrival) (now : PyDateTime) (num_journeys : Nat) :
    List InJourney → List OutJourney → List OutJourney
  | [], acc => acc
  | j :: rest, acc =>
    if check_journey_via_clapham j then
      let depart := format_time (parse_datetime j.startDateTime)
      if acc.any (fun o => o.departureTime == depart) then
        processJourneys arrivals now num_journeys rest acc
      else
        match process_journey arrivals now j (acc.length + 1) with
        | Except.ok (some pj) =>
          let acc2 := acc ++ [pj]
          if num_journeys ≤ acc2.length then acc2
          else processJourneys arrivals now num_journeys rest acc2
        | _ => processJourneys arrivals now num_journeys rest acc
    else processJourneys arrivals now num_journeys rest acc

/-- The offset loop of `fetch_and_process_tfl_data`: one `get_journey_plan`
call per offset in `[0, 15, 30]` (the offset itself is never sent upstream),
skipping falsy responses and responses without a `'journeys'` key, stopping
early once enough journeys are collected. -/
def fetchLoop (gp : Nat → FetchResult) (arrivals : List Arrival) (now : PyDateTime)
    (num_journeys : Nat) : List Nat → List OutJourney → List OutJourney
  | [], acc => acc
  | off :: rest, acc =>
    match gp off with
    | FetchResult.ok js =>
      let acc2 := processJourneys arrivals now num_journeys js acc
      if num_journeys ≤ acc2.length then acc2
      else fetchLoop gp arrivals now num_journeys rest acc2
    | _ => fetchLoop gp arrivals now num_journeys rest acc

/-- The final renumbering pass of `fetch_and_process_tfl_data`:
`journey['id'] = idx` for `idx` counting from 1. -/
def renumberFrom : Nat → List OutJourney → List OutJourney
  | _, [] => []
  | k, j :: rest => { j with id := k } :: renumberFrom (k + 1) rest

/-- The script's `fetch_and_process_tfl_data`. -/
def fetch_and_process_tfl_data (gp : Nat → FetchResult) (arrivals : List Arrival)
    (now : PyDateTime) (num_journeys : Nat) : List OutJourney :=
  renumberFrom 1 (fetchLoop gp arrivals now num_journeys [0, 15, 30] [])

/-- The script's `main`: `some data` models writing `live_data.json` with the journey
array, `none` models skipping the write (the `if data:` branch is not
taken for an empty list). -/
def main_result (gp : Nat → FetchResult) (arrivals : List Arrival)
    (now : PyDateTime) : Option (List OutJourney) :=
  let data := fetch_and_process_tfl_data gp arrivals now 3
  if data.isEmpty then none else some data

/-! ### Shared lemmas about `process_journey` -/

/-- Inversion of a successful `process_journey` run: the rail-leg split, the
two platform computations and the transfer computation all succeeded, and
the result is the `buildOutput` record over them. -/
theorem process_journey_eq_some
    (ar : List Arrival) (now : PyDateTime) (j : InJourney) (jid : Nat)
    (out : OutJourney)
    (h : process_journey ar now j jid = Except.ok (some out)) :
    ∃ leg1 leg2 rest p1 p2 t,
      railLegs j = leg1 :: leg2 :: rest ∧
      leg_platform ar now leg1 "Southern"
        (format_time (parse_datetime leg1.arrivalTime)) = Except.ok p1 ∧
      leg_platform ar now leg2 "London Overground"
        (format_time (parse_datetime leg2.departureTime)) = Except.ok p2 ∧
      transfer_calc (parse_datetime leg1.arrivalTime)
        (parse_datetime leg2.departureTime) = Except.ok t ∧
      out = buildOutput j jid now leg1 leg2 p1 p2 t := by
  unfold process_journey at h
  cases hrl : railLegs j with
  | nil => rw [hrl] at h; simp at h
  | cons l1 t1 =>
    cases t1 with
    | nil => rw [hrl] at h; simp at h
    | cons l2 rest =>
      rw [hrl] at h
      simp only [] at h
      cases hp1 : leg_platform ar now l1 "Southern"
          (format_time (parse_datetime l1.arrivalTime)) with
      | error e => rw [hp1] at h; simp at h
      | ok p1 =>
        rw [hp1] at h
        cases hp2 : leg_platform ar now l2 "London Overground"
            (format_time (parse_datetime l2.departureTime)) with
        | error e => rw [hp2] at h; simp at h
        | ok p2 =>
          rw [hp2] at h
          cases htc : transfer_calc (parse_datetime l1.arrivalTime)
              (parse_datetime l2.departureTime) with
          | error e => rw [htc] at h; simp at h
          | ok t =>
            rw [htc] at h
            simp only [Except.ok.injEq, Option.some.injEq] at h
            exact ⟨l1, l2, rest, p1, p2, t, rfl, hp1, hp2, htc, h.symm⟩

/-- Field-level consequence of `process_journey_eq_some` for the journey
header fields. -/
theorem process_journey_fields
    (ar : List Arrival) (now : PyDateTime) (j : InJourney) (jid : Nat)
    (out : OutJourney)
    (h : process_journey ar now j jid = Except.ok (some out)) :
    out.departureTime = format_time (parse_datetime j.startDateTime) ∧
    out.arrivalTime = format_time (parse_datetime j.arrivalDateTime) ∧
    out.totalDuration = toString (j.duration.getD 0) ++ " min" ∧
    out.status = statusOfLegs j.legs := by
  obtain ⟨l1, l2, rest, p1, p2, t, _, _, _, _, hout⟩ :=
    process_journey_eq_some ar now j jid out h
  subst hout
  simp [buildOutput]

/-- Decidable equality for `Except`, needed to check concrete
`process_journey` results by evaluation. -/
instance {ε α : Type} [DecidableEq ε] [DecidableEq α] : DecidableEq (Except ε α) := fun x y =>
  match x, y with
  | Except.error a, Except.error b =>
    if h : a = b then isTrue (h ▸ rfl) else isFalse (fun hc => h (Except.error.inj hc))
  | Except.ok a, Except.ok b =>
    if h : a = b then isTrue (h ▸ rfl) else isFalse (fun hc => h (Except.ok.inj hc))
  | Except.error _, Except.ok _ => isFalse (fun hc => Except.noConfusion hc)
  | Except.ok _, Except.error _ => isFalse (fun hc => Except.noConfusion hc)

/-- Truncating division by a non-negative divisor preserves non-negativity
(Python `int(x / y)` truncates toward zero, i.e. `Int.tdiv`). -/
theorem tdiv_nonneg_of_nonneg (x y : Int) (hx : 0 ≤ x) (hy : 0 ≤ y) :
    0 ≤ Int.tdiv x y := by
  obtain ⟨m, rfl⟩ := Int.eq_ofNat_of_zero_le hx
  obtain ⟨n, rfl⟩ := Int.eq_ofNat_of_zero_le hy
  exact Int.ofNat_nonneg _

/-! ### Concrete inputs used by witnesses and counterexamples -/

/-- Fixed `datetime.now()` value used by concrete runs. -/
def nowW : PyDateTime := ⟨0, 12, 0, 0, false⟩

def c10_walk_leg : InLeg := ⟨"walking", none, none, "", none, [], false, false⟩

def c10_rail_leg : InLeg := ⟨"overground", none, none, "", none, [], false, false⟩

/-- A journey with a single non-walking leg. -/
def c10_short_journey : InJourney := ⟨none, none, none, [c10_walk_leg, c10_rail_leg]⟩

def c10_leg1 : InLeg :=
  ⟨"national-rail", some (DtStr.valid ⟨0, 9, 50, 0, false⟩),
    some (DtStr.valid ⟨0, 10, 0, 0, false⟩),
    "Towards Clapham Junction from Platform 3", some [⟨some "Southern"⟩],
    [], false, false⟩

def c10_leg2 : InLeg :=
  ⟨"overground", some (DtStr.valid ⟨0, 10, 5, 0, false⟩),
    some (DtStr.valid ⟨0, 10, 15, 0, false⟩),
    "Platform 2 towards Imperial Wharf", some [⟨some "London Overground"⟩],
    [], false, false⟩

def c10_journey : InJourney :=
  ⟨some (DtStr.valid ⟨0, 9, 50, 0, false⟩), some (DtStr.valid ⟨0, 10, 15, 0, false⟩),
    some 25, [c10_leg1, c10_leg2]⟩

def c10_out : OutJourney :=
  ⟨1, "09:50", "10:15", "25 min", "On Time", "12:00:00",
    [LegOut.rail ⟨"Streatham Common", "Clapham Junction", "09:50", "10:00", "3",
        "Southern", "On Time"⟩,
      LegOut.transfer "Clapham Junction" "5 min",
      LegOut.rail ⟨"Clapham Junction", "Imperial Wharf", "10:05", "10:15", "2",
        "London Overground", "On Time"⟩]⟩

/-! ### C10 -/

/-- C10: `process_journey` returns `None` for every input journey with fewer
than two non-walking legs; every journey it does return has exactly three
legs entries, a rail leg, then the transfer record at Clapham Junction, then
a rail leg, and both rail legs carry the same status string as the journey
itself. -/
theorem C10_process_journey_shape
    (ar : List Arrival) (now : PyDateTime) (j : InJourney) (jid : Nat) :
    ((railLegs j).length < 2 → process_journey ar now j jid = Except.ok none) ∧
    (∀ out, process_journey ar now j jid = Except.ok (some out) →
      ∃ r1 tt r2,
        out.legs = [LegOut.rail r1, LegOut.transfer "Clapham Junction" tt,
          LegOut.rail r2] ∧
        r1.status = out.status ∧ r2.status = out.status) := by
  constructor
  · intro hlt
    unfold process_journey
    cases hrl : railLegs j with
    | nil => rfl
    | cons l1 t1 =>
      cases t1 with
      | nil => rfl
      | cons l2 rest =>
        rw [hrl] at hlt
        simp only [List.length] at hlt
        omega
  · intro out h
    obtain ⟨l1, l2, rest, p1, p2, t, _, _, _, _, hout⟩ :=
      process_journey_eq_some ar now j jid out h
    subst hout
    simp only [buildOutput]
    exact ⟨_, _, _, rfl, rfl, rfl⟩

/-- C10 witness: concrete evaluations of both halves. -/
theorem C10_process_journey_shape_witness :
    ((railLegs c10_short_journey).length < 2 ∧
      process_journey [] nowW c10_short_journey 1 = Except.ok none) ∧
    (process_journey [] nowW c10_journey 1 = Except.ok (some c10_out) ∧
      ∃ r1 tt r2,
        c10_out.legs = [LegOut.rail r1, LegOut.transfer "Clapham Junction" tt,
          LegOut.rail r2] ∧
        r1.status = c10_out.status ∧ r2.status = c10_out.status) :=
  ⟨⟨by decide, (C10_process_journey_shape [] nowW c10_short_journey 1).1 (by decide)⟩,
    ⟨by decide, (C10_process_journey_shape [] nowW c10_journey 1).2 c10_out (by decide)⟩⟩

/-! ### C2 -/

def c2_leg1 : InLeg :=
  ⟨"national-rail", some (DtStr.valid ⟨0, 10, 0, 0, false⟩),
    some (DtStr.valid ⟨0, 10, 10, 0, false⟩),
    "Towards Clapham Junction from Platform 3", some [⟨some "Southern"⟩],
    [], false, false⟩

def c2_leg2 : InLeg :=
  ⟨"overground", some (DtStr.valid ⟨0, 10, 15, 0, false⟩),
    some (DtStr.valid ⟨0, 10, 30, 0, false⟩),
    "Platform 2 towards Imperial Wharf", some [⟨some "London Overground"⟩],
    [], false, false⟩

/-- A journey 30 minutes long by its own timestamps whose upstream
`duration` field says 25. -/
def c2_journey : InJourney :=
  ⟨some (DtStr.valid ⟨0, 10, 0, 0, false⟩), some (DtStr.valid ⟨0, 10, 30, 0, false⟩),
    some 25, [c2_leg1, c2_leg2]⟩

def c2_gp : Nat → FetchResult :=
  fun o => if o == 0 then FetchResult.ok [c2_journey] else FetchResult.failed

def c2_out : OutJourney :=
  ⟨1, "10:00", "10:30", "25 min", "On Time", "12:00:00",
    [LegOut.rail ⟨"Streatham Common", "Clapham Junction", "10:00", "10:10", "3",
        "Southern", "On Time"⟩,
      LegOut.transfer "Clapham Junction" "5 min",
      LegOut.rail ⟨"Clapham Junction", "Imperial Wharf", "10:15", "10:30", "2",
        "London Overground", "On Time"⟩]⟩

/-- C2 counterexample: the emitted journey departs 10:00 and arrives 10:30
(a 30-minute difference) yet its totalDuration reads "25 min", copied from
the upstream duration field, so totalDuration does not equal arrival minus
departure. -/
theorem C2_totalDuration_cex :
    fetch_and_process_tfl_data c2_gp [] nowW 3 = [c2_out] ∧
    c2_out.departureTime = "10:00" ∧ c2_out.arrivalTime = "10:30" ∧
    c2_out.totalDuration = "25 min" ∧ ("25 min" : String) ≠ "30 min" :=
  ⟨by decide, by decide, by decide, by decide, by decide⟩

/-- C2 amended: the totalDuration of every journey `process_journey` emits
is the upstream `duration` field (default 0) rendered as "<n> min"; it is
not recomputed from the journey's arrival and departure times. -/
theorem C2_totalDuration_from_upstream_field
    (ar : List Arrival) (now : PyDateTime) (j : InJourney) (jid : Nat)
    (out : OutJourney)
    (h : process_journey ar now j jid = Except.ok (some out)) :
    out.totalDuration = toString (j.duration.getD 0) ++ " min" :=
  (process_journey_fields ar now j jid out h).2.2.1

/-- C2 witness: the amended statement evaluated on the concrete journey. -/
theorem C2_totalDuration_witness :
    process_journey [] nowW c2_journey 1 = Except.ok (some c2_out) ∧
    c2_out.totalDuration = toString (c2_journey.duration.getD 0) ++ " min" :=
  ⟨by decide, C2_totalDuration_from_upstream_field [] nowW c2_journey 1 c2_out (by decide)⟩

/-! ### C1 -/

def c1_leg1 : InLeg :=
  ⟨"national-rail", some (DtStr.valid ⟨0, 10, 0, 0, false⟩),
    some (DtStr.valid ⟨0, 10, 10, 0, false⟩),
    "Towards Clapham Junction from Platform 3", some [⟨some "Southern"⟩],
    [], false, false⟩

/-- A connecting leg that departs five minutes before the first leg
arrives. -/
def c1_leg2 : InLeg :=
  ⟨"overground", some (DtStr.valid ⟨0, 10, 5, 0, false⟩),
    some (DtStr.valid ⟨0, 10, 30, 0, false⟩),
    "Platform 2 towards Imperial Wharf", some [⟨some "London Overground"⟩],
    [], false, false⟩

def c1_journey : InJourney :=
  ⟨some (DtStr.valid ⟨0, 10, 0, 0, false⟩), some (DtStr.valid ⟨0, 10, 30, 0, false⟩),
    some 30, [c1_leg1, c1_leg2]⟩

def c1_gp : Nat → FetchResult :=
  fun o => if o == 0 then FetchResult.ok [c1_journey] else FetchResult.failed

def c1_out : OutJourney :=
  ⟨1, "10:00", "10:30", "30 min", "On Time", "12:00:00",
    [LegOut.rail ⟨"Streatham Common", "Clapham Junction", "10:00", "10:10", "3",
        "Southern", "On Time"⟩,
      LegOut.transfer "Clapham Junction" "-5 min",
      LegOut.rail ⟨"Clapham Junction", "Imperial Wharf", "10:05", "10:30", "2",
        "London Overground", "On Time"⟩]⟩

/-- C1 counterexample: a candidate whose second leg departs five minutes
before the first leg arrives — transfer duration -5 minutes, below any
non-negative minimum interchange time — is emitted anyway; no minimum
interchange check exists in the code. -/
theorem C1_no_minimum_interchange_cex :
    fetch_and_process_tfl_data c1_gp [] nowW 3 = [c1_out] ∧
    c1_out.legs[1]? = some (LegOut.transfer "Clapham Junction" "-5 min") ∧
    (-5 : Int) < 0 :=
  ⟨by decide, by decide, by decide⟩

/-- C1 amended: `process_journey` applies no minimum-interchange filter: the
transfer record of every emitted journey carries exactly the truncated
minute difference computed by `transfer_calc` (0 when either interchange
time is missing), whatever its value, including negative values. -/
theorem C1_transferTime_unfiltered
    (ar : List Arrival) (now : PyDateTime) (j : InJourney) (jid : Nat)
    (out : OutJourney)
    (h : process_journey ar now j jid = Except.ok (some out)) :
    ∃ leg1 leg2 rest t,
      railLegs j = leg1 :: leg2 :: rest ∧
      transfer_calc (parse_datetime leg1.arrivalTime)
        (parse_datetime leg2.departureTime) = Except.ok t ∧
      out.legs[1]? = some (LegOut.transfer "Clapham Junction" (toString t ++ " min")) := by
  obtain ⟨l1, l2, rest, p1, p2, t, hrl, _, _, htc, hout⟩ :=
    process_journey_eq_some ar now j jid out h
  subst hout
  exact ⟨l1, l2, rest, t, hrl, htc, rfl⟩

/-- C1 witness: the amended statement evaluated on the concrete journey with
the negative transfer. -/
theorem C1_transferTime_unfiltered_witness :
    process_journey [] nowW c1_journey 1 = Except.ok (some c1_out) ∧
    ∃ leg1 leg2 rest t,
      railLegs c1_journey = leg1 :: leg2 :: rest ∧
      transfer_calc (parse_datetime leg1.arrivalTime)
        (parse_datetime leg2.departureTime) = Except.ok t ∧
      c1_out.legs[1]? = some (LegOut.transfer "Clapham Junction" (toString t ++ " min")) :=
  ⟨by decide, C1_transferTime_unfiltered [] nowW c1_journey 1 c1_out (by decide)⟩

/-! ### C4 -/

/-- A first leg whose arrival time string is unparseable. -/
def c4_leg1 : InLeg :=
  ⟨"national-rail", some (DtStr.valid ⟨0, 10, 0, 0, false⟩), some DtStr.invalid,
    "Towards Clapham Junction from Platform 3", some [⟨some "Southern"⟩],
    [], false, false⟩

def c4_leg2 : InLeg :=
  ⟨"overground", some (DtStr.valid ⟨0, 10, 15, 0, false⟩),
    some (DtStr.valid ⟨0, 10, 30, 0, false⟩),
    "Platform 2 towards Imperial Wharf", some [⟨some "London Overground"⟩],
    [], false, false⟩

/-- A journey whose own departure timestamp is unparseable. -/
def c4_journey : InJourney :=
  ⟨some DtStr.invalid, some (DtStr.valid ⟨0, 10, 30, 0, false⟩), some 30,
    [c4_leg1, c4_leg2]⟩

def c4_gp : Nat → FetchResult :=
  fun o => if o == 0 then FetchResult.ok [c4_journey] else FetchResult.failed

def c4_out : OutJourney :=
  ⟨1, "N/A", "10:30", "30 min", "On Time", "12:00:00",
    [LegOut.rail ⟨"Streatham Common", "Clapham Junction", "10:00", "N/A", "3",
        "Southern", "On Time"⟩,
      LegOut.transfer "Clapham Junction" "0 min",
      LegOut.rail ⟨"Clapham Junction", "Imperial Wharf", "10:15", "10:30", "2",
        "London Overground", "On Time"⟩]⟩

/-- C4 counterexample: a candidate whose departure timestamp (and first-leg
arrival timestamp) fails to parse is not skipped: it appears in the output,
with the unparseable times rendered as "N/A" and the transfer time forced
to 0. -/
theorem C4_unparseable_not_skipped_cex :
    parse_datetime c4_journey.startDateTime = none ∧
    fetch_and_process_tfl_data c4_gp [] nowW 3 = [c4_out] ∧
    c4_out.departureTime = "N/A" :=
  ⟨by decide, by decide, by decide⟩

/-- C4 amended: an unparseable timestamp never fails the run and never
causes the candidate to be dropped; the journey is emitted with the
affected field rendered as "N/A". -/
theorem C4_unparseable_rendered_NA
    (ar : List Arrival) (now : PyDateTime) (j : InJourney) (jid : Nat)
    (out : OutJourney)
    (h : process_journey ar now j jid = Except.ok (some out)) :
    (parse_datetime j.startDateTime = none → out.departureTime = "N/A") ∧
    (parse_datetime j.arrivalDateTime = none → out.arrivalTime = "N/A") := by
  obtain ⟨hdep, harr, _, _⟩ := process_journey_fields ar now j jid out h
  constructor
  · intro hp; rw [hdep, hp]; rfl
  · intro hp; rw [harr, hp]; rfl

/-- C4 witness: the amended statement evaluated on the concrete journey with
the unparseable departure timestamp. -/
theorem C4_unparseable_rendered_NA_witness :
    process_journey [] nowW c4_journey 1 = Except.ok (some c4_out) ∧
    parse_datetime c4_journey.startDateTime = none ∧
    c4_out.departureTime = "N/A" :=
  ⟨by decide, by decide,
    (C4_unparseable_rendered_NA [] nowW c4_journey 1 c4_out (by decide)).1 (by decide)⟩

/-! ### C6 -/

def c6_leg1 : InLeg :=
  ⟨"national-rail", some (DtStr.valid ⟨0, 10, 50, 0, false⟩),
    some (DtStr.valid ⟨0, 11, 0, 0, false⟩),
    "Towards Clapham Junction from Platform 3", some [⟨some "Southern"⟩],
    [], false, false⟩

/-- A connecting leg that departs three minutes before the first leg
arrives. -/
def c6_leg2 : InLeg :=
  ⟨"overground", some (DtStr.valid ⟨0, 10, 57, 0, false⟩),
    some (DtStr.valid ⟨0, 11, 10, 0, false⟩),
    "Platform 2 towards Imperial Wharf", some [⟨some "London Overground"⟩],
    [], false, false⟩

def c6_journey : InJourney :=
  ⟨some (DtStr.valid ⟨0, 10, 50, 0, false⟩), some (DtStr.valid ⟨0, 11, 10, 0, false⟩),
    some 20, [c6_leg1, c6_leg2]⟩

def c6_gp : Nat → FetchResult :=
  fun o => if o == 0 then FetchResult.ok [c6_journey] else FetchResult.failed

def c6_out : OutJourney :=
  ⟨1, "10:50", "11:10", "20 min", "On Time", "12:00:00",
    [LegOut.rail ⟨"Streatham Common", "Clapham Junction", "10:50", "11:00", "3",
        "Southern", "On Time"⟩,
      LegOut.transfer "Clapham Junction" "-3 min",
      LegOut.rail ⟨"Clapham Junction", "Imperial Wharf", "10:57", "11:10", "2",
        "London Overground", "On Time"⟩]⟩

/-- C6 counterexample: the emitted journey carries the negative transfer
time "-3 min", so not all duration fields of the output are non-negative. -/
theorem C6_negative_transfer_cex :
    fetch_and_process_tfl_data c6_gp [] nowW 3 = [c6_out] ∧
    c6_out.legs[1]? = some (LegOut.transfer "Clapham Junction" "-3 min") ∧
    ¬ (0 : Int) ≤ -3 :=
  ⟨by decide, by decide, by decide⟩

/-- C6 amended: both duration fields are integers rendered as "<n> min";
they are non-negative whenever the upstream duration field is non-negative
and the second rail leg departs no earlier than the first arrives, but the
code itself enforces neither condition. -/
theorem C6_durations_nonneg_under_conditions
    (ar : List Arrival) (now : PyDateTime) (j : InJourney) (jid : Nat)
    (out : OutJourney) (leg1 leg2 : InLeg) (rest : List InLeg)
    (hrl : railLegs j = leg1 :: leg2 :: rest)
    (h : process_journey ar now j jid = Except.ok (some out))
    (hdur : 0 ≤ j.duration.getD 0)
    (hord : ∀ a d, parse_datetime leg1.arrivalTime = some a →
      parse_datetime leg2.departureTime = some d →
      a.totalSeconds ≤ d.totalSeconds) :
    ∃ dm tm : Int, out.totalDuration = toString dm ++ " min" ∧ 0 ≤ dm ∧
      out.legs[1]? = some (LegOut.transfer "Clapham Junction" (toString tm ++ " min")) ∧
      0 ≤ tm := by
  obtain ⟨l1, l2, rest', p1, p2, t, hrl', hp1, hp2, htc, hout⟩ :=
    process_journey_eq_some ar now j jid out h
  rw [hrl] at hrl'
  obtain ⟨e1, e2, e3⟩ : leg1 = l1 ∧ leg2 = l2 ∧ rest = rest' := by
    simpa using hrl'
  subst e1; subst e2; subst e3
  subst hout
  refine ⟨j.duration.getD 0, t, rfl, hdur, rfl, ?_⟩
  unfold transfer_calc at htc
  cases ha : parse_datetime leg1.arrivalTime with
  | none =>
    rw [ha] at htc
    cases hd : parse_datetime leg2.departureTime with
    | none => rw [hd] at htc; simp at htc; omega
    | some d => rw [hd] at htc; simp at htc; omega
  | some a =>
    rw [ha] at htc
    cases hd : parse_datetime leg2.departureTime with
    | none => rw [hd] at htc; simp at htc; omega
    | some d =>
      rw [hd] at htc
      have htc' : (if (a.aware == d.aware) = true then
          Except.ok ((d.totalSeconds - a.totalSeconds).tdiv 60)
          else Except.error ()) = Except.ok t := htc
      by_cases haw : (a.aware == d.aware) = true
      · rw [if_pos haw] at htc'
        simp only [Except.ok.injEq] at htc'
        subst htc'
        exact tdiv_nonneg_of_nonneg _ _ (by have := hord a d ha hd; omega) (by omega)
      · rw [if_neg haw] at htc'
        exact absurd htc' (by simp)

/-- C6 witness: the amended statement evaluated on a journey satisfying both
side conditions. -/
theorem C6_durations_nonneg_witness :
    railLegs c10_journey = c10_leg1 :: c10_leg2 :: [] ∧
    process_journey [] nowW c10_journey 2 = Except.ok (some { c10_out with id := 2 }) ∧
    0 ≤ c10_journey.duration.getD 0 ∧
    ∃ dm tm : Int,
      ({ c10_out with id := 2 } : OutJourney).totalDuration = toString dm ++ " min" ∧
      0 ≤ dm ∧
      ({ c10_out with id := 2 } : OutJourney).legs[1]? =
        some (LegOut.transfer "Clapham Junction" (toString tm ++ " min")) ∧
      0 ≤ tm :=
  ⟨by decide, by decide, by decide,
    C6_durations_nonneg_under_conditions [] nowW c10_journey 2 _ c10_leg1 c10_leg2 []
      (by decide) (by decide) (by decide)
      (fun a d ha hd => by
        have ea : (⟨0, 10, 0, 0, false⟩ : PyDateTime) = a := Option.some.inj ha
        have ed : (⟨0, 10, 5, 0, false⟩ : PyDateTime) = d := Option.some.inj hd
        rw [← ea, ← ed]; decide)⟩

/-! ### C7 -/

/-- A first leg with no `routeOptions` key at all (no operator
information). -/
def c7_leg1 : InLeg :=
  ⟨"national-rail", some (DtStr.valid ⟨0, 10, 0, 0, false⟩),
    some (DtStr.valid ⟨0, 10, 10, 0, false⟩),
    "Towards Clapham Junction from Platform 3", none, [], false, false⟩

def c7_leg2 : InLeg :=
  ⟨"overground", some (DtStr.valid ⟨0, 10, 15, 0, false⟩),
    some (DtStr.valid ⟨0, 10, 30, 0, false⟩),
    "Platform 2 towards Imperial Wharf", some [⟨some "London Overground"⟩],
    [], false, false⟩

def c7_journey : InJourney :=
  ⟨some (DtStr.valid ⟨0, 10, 0, 0, false⟩), some (DtStr.valid ⟨0, 10, 30, 0, false⟩),
    some 30, [c7_leg1, c7_leg2]⟩

def c7_gp : Nat → FetchResult :=
  fun o => if o == 0 then FetchResult.ok [c7_journey] else FetchResult.failed

def c7_rail1 : RailOut :=
  ⟨"Streatham Common", "Clapham Junction", "10:00", "10:10", "3", "Rail", "On Time"⟩

def c7_out : OutJourney :=
  ⟨1, "10:00", "10:30", "30 min", "On Time", "12:00:00",
    [LegOut.rail c7_rail1,
      LegOut.transfer "Clapham Junction" "5 min",
      LegOut.rail ⟨"Clapham Junction", "Imperial Wharf", "10:15", "10:30", "2",
        "London Overground", "On Time"⟩]⟩

/-- C7 counterexample: when the operator is absent from the source record
(no `routeOptions`), the emitted operator field is the fallback "Rail", not
the sentinel "Unknown" that the claim states. -/
theorem C7_operator_default_cex :
    (c7_journey.legs.head?.map (fun l => l.routeOptions)) = some none ∧
    fetch_and_process_tfl_data c7_gp [] nowW 3 = [c7_out] ∧
    c7_out.legs.head? = some (LegOut.rail c7_rail1) ∧
    c7_rail1.operator = "Rail" ∧ ("Rail" : String) ≠ "Unknown" :=
  ⟨by decide, by decide, by decide, by decide, by decide⟩

/-- Whether an upstream record carries no usable operator name: the
`routeOptions` key is absent, the list is empty, or its first entry has no
`name` key — all three make the script's operator extraction fall back. -/
def operatorAbsent (ro : Option (List RouteOption)) : Bool :=
  match ro with
  | none => true
  | some [] => true
  | some (r :: _) => r.name.isNone

/-- The operator extraction yields "Rail" whenever the record carries no
usable operator name. -/
theorem lineNameOf_eq_Rail (ro : Option (List RouteOption))
    (h : operatorAbsent ro = true) : lineNameOf ro = "Rail" := by
  cases ro with
  | none => rfl
  | some l =>
    cases l with
    | nil => rfl
    | cons r rl =>
      cases hn : r.name with
      | none => simp [lineNameOf, hn]
      | some s => simp [operatorAbsent, hn] at h

/-- C7 amended: for every emitted journey, each rail leg's platform field
(arrivalPlatform on leg 1, departurePlatform on leg 2) defaults to the
sentinel "TBC" whenever that leg's platform computation yields nothing
(`None` or an empty string), and each rail leg's operator field defaults to
"Rail" — not "Unknown" — whenever the source record carries no usable
operator name (`routeOptions` absent, empty, or first entry nameless). -/
theorem C7_platform_operator_defaults
    (ar : List Arrival) (now : PyDateTime) (j : InJourney) (jid : Nat)
    (out : OutJourney) (leg1 leg2 : InLeg) (rest : List InLeg)
    (hrl : railLegs j = leg1 :: leg2 :: rest)
    (h : process_journey ar now j jid = Except.ok (some out)) :
    ∃ r1 tt r2 p1 p2,
      out.legs = [LegOut.rail r1, LegOut.transfer "Clapham Junction" tt,
        LegOut.rail r2] ∧
      leg_platform ar now leg1 "Southern"
        (format_time (parse_datetime leg1.arrivalTime)) = Except.ok p1 ∧
      leg_platform ar now leg2 "London Overground"
        (format_time (parse_datetime leg2.departureTime)) = Except.ok p2 ∧
      ((p1 = none ∨ p1 = some "") → r1.platform = "TBC") ∧
      ((p2 = none ∨ p2 = some "") → r2.platform = "TBC") ∧
      (operatorAbsent leg1.routeOptions = true → r1.operator = "Rail") ∧
      (operatorAbsent leg2.routeOptions = true → r2.operator = "Rail") := by
  obtain ⟨l1, l2, rest', p1, p2, t, hrl', hp1, hp2, htc, hout⟩ :=
    process_journey_eq_some ar now j jid out h
  rw [hrl] at hrl'
  obtain ⟨e1, e2, e3⟩ : leg1 = l1 ∧ leg2 = l2 ∧ rest = rest' := by
    simpa using hrl'
  subst e1; subst e2; subst e3
  subst hout
  simp only [buildOutput]
  refine ⟨_, _, _, p1, p2, rfl, hp1, hp2, ?_, ?_, ?_, ?_⟩
  · intro hp
    show pyOrStr p1 "TBC" = "TBC"
    cases hp with
    | inl hl => rw [hl]; rfl
    | inr hl => rw [hl]; rfl
  · intro hp
    show pyOrStr p2 "TBC" = "TBC"
    cases hp with
    | inl hl => rw [hl]; rfl
    | inr hl => rw [hl]; rfl
  · intro ha
    show lineNameOf leg1.routeOptions = "Rail"
    exact lineNameOf_eq_Rail leg1.routeOptions ha
  · intro ha
    show lineNameOf leg2.routeOptions = "Rail"
    exact lineNameOf_eq_Rail leg2.routeOptions ha

/-- A C7-witness first leg: no `routeOptions` key, no platform in the
instruction, and (with the empty arrivals feed) no determinable platform. -/
def c7w_leg1 : InLeg :=
  ⟨"national-rail", some (DtStr.valid ⟨0, 10, 0, 0, false⟩),
    some (DtStr.valid ⟨0, 10, 10, 0, false⟩),
    "Towards Clapham Junction", none, [], false, false⟩

/-- A C7-witness second leg: `routeOptions` present but its first entry has
no name, no platform in the instruction, no determinable platform. -/
def c7w_leg2 : InLeg :=
  ⟨"overground", some (DtStr.valid ⟨0, 10, 15, 0, false⟩),
    some (DtStr.valid ⟨0, 10, 30, 0, false⟩),
    "Towards Imperial Wharf", some [⟨none⟩], [], false, false⟩

def c7w_journey : InJourney :=
  ⟨some (DtStr.valid ⟨0, 10, 0, 0, false⟩), some (DtStr.valid ⟨0, 10, 30, 0, false⟩),
    some 30, [c7w_leg1, c7w_leg2]⟩

def c7w_out : OutJourney :=
  ⟨1, "10:00", "10:30", "30 min", "On Time", "12:00:00",
    [LegOut.rail ⟨"Streatham Common", "Clapham Junction", "10:00", "10:10", "TBC",
        "Rail", "On Time"⟩,
      LegOut.transfer "Clapham Junction" "5 min",
      LegOut.rail ⟨"Clapham Junction", "Imperial Wharf", "10:15", "10:30", "TBC",
        "Rail", "On Time"⟩]⟩

/-- C7 witness: the amended statement evaluated on a journey with no
determinable platform on either leg, an absent `routeOptions` key on leg 1
and a nameless `routeOptions` entry on leg 2. -/
theorem C7_platform_operator_defaults_witness :
    process_journey [] nowW c7w_journey 1 = Except.ok (some c7w_out) ∧
    railLegs c7w_journey = c7w_leg1 :: c7w_leg2 :: [] ∧
    operatorAbsent c7w_leg1.routeOptions = true ∧
    operatorAbsent c7w_leg2.routeOptions = true ∧
    (∃ r1 tt r2 p1 p2,
      c7w_out.legs = [LegOut.rail r1, LegOut.transfer "Clapham Junction" tt,
        LegOut.rail r2] ∧
      leg_platform [] nowW c7w_leg1 "Southern"
        (format_time (parse_datetime c7w_leg1.arrivalTime)) = Except.ok p1 ∧
      leg_platform [] nowW c7w_leg2 "London Overground"
        (format_time (parse_datetime c7w_leg2.departureTime)) = Except.ok p2 ∧
      ((p1 = none ∨ p1 = some "") → r1.platform = "TBC") ∧
      ((p2 = none ∨ p2 = some "") → r2.platform = "TBC") ∧
      (operatorAbsent c7w_leg1.routeOptions = true → r1.operator = "Rail") ∧
      (operatorAbsent c7w_leg2.routeOptions = true → r2.operator = "Rail")) :=
  ⟨by decide, by decide, by decide, by decide,
    C7_platform_operator_defaults [] nowW c7w_journey 1 c7w_out c7w_leg1 c7w_leg2 []
      (by decide) (by decide)⟩

/-! ### C5 -/

/-- C5: when every `get_journey_plan` call yields no usable journey list —
a caught request exception (network error, timeout, authentication
rejection, all returned as `None`), a falsy or malformed response, or a
response without a `'journeys'` key — the run produces the empty result
list, not a truncated or corrupt one. -/
theorem C5_fetch_failure_empty_result
    (gp : Nat → FetchResult) (ar : List Arrival) (now : PyDateTime) (n : Nat)
    (hfail : ∀ o, o ∈ [0, 15, 30] → (gp o).isOk = false) :
    fetch_and_process_tfl_data gp ar now n = [] := by
  unfold fetch_and_process_tfl_data
  have h0 := hfail 0 (by simp)
  have h15 := hfail 15 (by simp)
  have h30 := hfail 30 (by simp)
  unfold fetchLoop
  cases hg0 : gp 0 with
  | ok js => rw [hg0] at h0; simp [FetchResult.isOk] at h0
  | failed =>
    unfold fetchLoop
    cases hg15 : gp 15 with
    | ok js => rw [hg15] at h15; simp [FetchResult.isOk] at h15
    | failed =>
      unfold fetchLoop
      cases hg30 : gp 30 with
      | ok js => rw [hg30] at h30; simp [FetchResult.isOk] at h30
      | failed => rfl
      | noJourneysKey => rfl
    | noJourneysKey =>
      unfold fetchLoop
      cases hg30 : gp 30 with
      | ok js => rw [hg30] at h30; simp [FetchResult.isOk] at h30
      | failed => rfl
      | noJourneysKey => rfl
  | noJourneysKey =>
    unfold fetchLoop
    cases hg15 : gp 15 with
    | ok js => rw [hg15] at h15; simp [FetchResult.isOk] at h15
    | failed =>
      unfold fetchLoop
      cases hg30 : gp 30 with
      | ok js => rw [hg30] at h30; simp [FetchResult.isOk] at h30
      | failed => rfl
      | noJourneysKey => rfl
    | noJourneysKey =>
      unfold fetchLoop
      cases hg30 : gp 30 with
      | ok js => rw [hg30] at h30; simp [FetchResult.isOk] at h30
      | failed => rfl
      | noJourneysKey => rfl

/-- C5 witness: every call failing with a caught exception yields `[]`. -/
theorem C5_fetch_failure_empty_result_witness :
    (∀ o, o ∈ [0, 15, 30] → ((fun _ => FetchResult.failed) o).isOk = false) ∧
    fetch_and_process_tfl_data (fun _ => FetchResult.failed) [] nowW 3 = [] :=
  ⟨by decide, C5_fetch_failure_empty_result (fun _ => FetchResult.failed) [] nowW 3
    (by decide)⟩

/-! ### C3 -/

/-- C3: contrary to the claim, a run with zero qualifying journeys does not
write an empty JSON array: `main` only writes the output file when the
journey list is non-empty (`if data:`), so the empty run skips the write
entirely. -/
theorem C3_empty_run_skips_write
    (gp : Nat → FetchResult) (ar : List Arrival) (now : PyDateTime)
    (hempty : fetch_and_process_tfl_data gp ar now 3 = []) :
    main_result gp ar now = none := by
  unfold main_result
  rw [hempty]
  rfl

/-- C3 witness: the all-fetches-fail run produces no file write at all. -/
theorem C3_empty_run_skips_write_witness :
    fetch_and_process_tfl_data (fun _ => FetchResult.failed) [] nowW 3 = [] ∧
    main_result (fun _ => FetchResult.failed) [] nowW = none :=
  ⟨by decide, C3_empty_run_skips_write (fun _ => FetchResult.failed) [] nowW (by decide)⟩

/-! ### C9 -/

/-- Renumbering ids leaves every departure time unchanged. -/
theorem renumberFrom_map_departureTime (k : Nat) (l : List OutJourney) :
    (renumberFrom k l).map (fun o => o.departureTime) =
      l.map (fun o => o.departureTime) := by
  induction l generalizing k with
  | nil => rfl
  | cons j rest ih => simp [renumberFrom, ih]

/-- The inner journey loop preserves distinctness of departure times: a
journey is only appended after the `any` duplicate check on the exact string
it will carry as its own departureTime. -/
theorem processJourneys_nodup (ar : List Arrival) (now : PyDateTime) (num : Nat)
    (js : List InJourney) (acc : List OutJourney)
    (hacc : (acc.map (fun o => o.departureTime)).Nodup) :
    ((processJourneys ar now num js acc).map (fun o => o.departureTime)).Nodup := by
  induction js generalizing acc with
  | nil => simpa [processJourneys] using hacc
  | cons j rest ih =>
    simp only [processJourneys]
    by_cases hc : check_journey_via_clapham j = true
    · rw [if_pos hc]
      by_cases hany : (acc.any fun o =>
          o.departureTime == format_time (parse_datetime j.startDateTime)) = true
      · rw [if_pos hany]
        exact ih acc hacc
      · rw [if_neg hany]
        cases hp : process_journey ar now j (acc.length + 1) with
        | error e => exact ih acc hacc
        | ok o =>
          cases o with
          | none => exact ih acc hacc
          | some pj =>
            have hdep : pj.departureTime =
                format_time (parse_datetime j.startDateTime) :=
              (process_journey_fields ar now j (acc.length + 1) pj hp).1
            have hnotmem : format_time (parse_datetime j.startDateTime) ∉
                acc.map (fun o => o.departureTime) := by
              intro hmem
              obtain ⟨o, ho, hoeq⟩ := List.mem_map.mp hmem
              exact hany (List.any_eq_true.mpr ⟨o, ho, by simp [hoeq]⟩)
            have hacc2 : (((acc ++ [pj]).map (fun o => o.departureTime))).Nodup := by
              rw [List.map_append]
              rw [List.nodup_append]
              refine ⟨hacc, List.nodup_singleton _, ?_⟩
              intro x hx hx1
              simp only [List.map_cons, List.map_nil, List.mem_singleton] at hx1
              rw [hx1, hdep] at hx
              exact hnotmem hx
            show (List.map (fun o => o.departureTime)
              (if num ≤ (acc ++ [pj]).length then acc ++ [pj]
                else processJourneys ar now num rest (acc ++ [pj]))).Nodup
            by_cases hlen : num ≤ (acc ++ [pj]).length
            · rw [if_pos hlen]
              exact hacc2
            · rw [if_neg hlen]
              exact ih _ hacc2
    · rw [if_neg hc]
      exact ih acc hacc

/-- The offset loop preserves distinctness of departure times. -/
theorem fetchLoop_nodup (gp : Nat → FetchResult) (ar : List Arrival)
    (now : PyDateTime) (num : Nat) (offs : List Nat) (acc : List OutJourney)
    (hacc : (acc.map (fun o => o.departureTime)).Nodup) :
    ((fetchLoop gp ar now num offs acc).map (fun o => o.departureTime)).Nodup := by
  induction offs generalizing acc with
  | nil => simpa [fetchLoop] using hacc
  | cons off rest ih =>
    rw [fetchLoop]
    cases hg : gp off with
    | ok js =>
      have h2 := processJourneys_nodup ar now num js acc hacc
      show (List.map (fun o => o.departureTime)
        (if num ≤ (processJourneys ar now num js acc).length
          then processJourneys ar now num js acc
          else fetchLoop gp ar now num rest (processJourneys ar now num js acc))).Nodup
      by_cases hlen : num ≤ (processJourneys ar now num js acc).length
      · rw [if_pos hlen]
        exact h2
      · rw [if_neg hlen]
        exact ih _ h2
    | failed => exact ih acc hacc
    | noJourneysKey => exact ih acc hacc

/-- C9: no two journeys of any `fetch_and_process_tfl_data` output share a
formatted departureTime; a candidate whose formatted start time equals that
of an already-accepted journey is skipped. -/
theorem C9_departureTimes_nodup (gp : Nat → FetchResult) (ar : List Arrival)
    (now : PyDateTime) (n : Nat) :
    ((fetch_and_process_tfl_data gp ar now n).map
      (fun o => o.departureTime)).Nodup := by
  unfold fetch_and_process_tfl_data
  rw [renumberFrom_map_departureTime]
  exact fetchLoop_nodup gp ar now n [0, 15, 30] [] (by simp)

/-! ### C8 -/

/-- Output journey with the freshness timestamp blanked, used to compare two
runs up to `live_updated_at`. -/
def scrubLive (o : OutJourney) : OutJourney := { o with live_updated_at := "" }

/-- The live-arrivals platform lookup reads the clock only through the
current date. -/
theorem get_platform_same_day (ar : List Arrival) (ln ts : String)
    (now1 now2 : PyDateTime) (h : now1.day = now2.day) :
    get_platform_from_arrivals ar ln ts now1 =
      get_platform_from_arrivals ar ln ts now2 := by
  unfold get_platform_from_arrivals
  rw [h]

/-- The per-leg platform computation reads the clock only through the
current date. -/
theorem leg_platform_same_day (ar : List Arrival) (leg : InLeg) (dflt ts : String)
    (now1 now2 : PyDateTime) (h : now1.day = now2.day) :
    leg_platform ar now1 leg dflt ts = leg_platform ar now2 leg dflt ts := by
  unfold leg_platform
  cases extract_platform_from_instruction leg.instructionSummary with
  | some p => rfl
  | none =>
    cases leg.routeOptions with
    | none => rw [get_platform_same_day ar dflt ts now1 now2 h]
    | some l =>
      cases l with
      | nil => rfl
      | cons r rl =>
        simp only []
        rw [get_platform_same_day ar (r.name.getD dflt) ts now1 now2 h]

/-- Up to the `live_updated_at` field, `process_journey` reads the clock
only through the current date. -/
theorem process_journey_same_day (ar : List Arrival) (j : InJourney) (jid : Nat)
    (now1 now2 : PyDateTime) (h : now1.day = now2.day) :
    Except.map (Option.map scrubLive) (process_journey ar now1 j jid) =
      Except.map (Option.map scrubLive) (process_journey ar now2 j jid) := by
  unfold process_journey
  cases hrl : railLegs j with
  | nil => rfl
  | cons l1 t1 =>
    cases t1 with
    | nil => rfl
    | cons l2 rest =>
      simp only []
      rw [leg_platform_same_day ar l1 "Southern"
          (format_time (parse_datetime l1.arrivalTime)) now1 now2 h,
        leg_platform_same_day ar l2 "London Overground"
          (format_time (parse_datetime l2.departureTime)) now1 now2 h]
      cases leg_platform ar now2 l1 "Southern"
          (format_time (parse_datetime l1.arrivalTime)) with
      | error e => rfl
      | ok p1 =>
        cases leg_platform ar now2 l2 "London Overground"
            (format_time (parse_datetime l2.departureTime)) with
        | error e => rfl
        | ok p2 =>
          cases transfer_calc (parse_datetime l1.arrivalTime)
              (parse_datetime l2.departureTime) with
          | error e => rfl
          | ok t => rfl

/-- Equality of departure-time projections follows from equality of scrubbed
projections (helper for the duplicate check). -/
theorem any_dep_eq_of_map_eq (acc1 acc2 : List OutJourney) (s : String)
    (hdT : acc1.map (fun o => o.departureTime) =
      acc2.map (fun o => o.departureTime)) :
    (acc1.any fun o => o.departureTime == s) =
      (acc2.any fun o => o.departureTime == s) := by
  induction acc1 generalizing acc2 with
  | nil =>
    cases acc2 with
    | nil => rfl
    | cons b bs => simp at hdT
  | cons a as ih =>
    cases acc2 with
    | nil => simp at hdT
    | cons b bs =>
      simp only [List.map_cons, List.cons.injEq] at hdT
      simp only [List.any_cons, hdT.1, ih bs hdT.2]

/-- Scrubbed-projection equality implies departure-time projection
equality. -/
theorem map_dep_eq_of_map_scrub_eq (acc1 acc2 : List OutJourney)
    (hacc : acc1.map scrubLive = acc2.map scrubLive) :
    acc1.map (fun o => o.departureTime) = acc2.map (fun o => o.departureTime) := by
  have h1 : acc1.map (fun o => o.departureTime) =
      (acc1.map scrubLive).map (fun o => o.departureTime) := by
    rw [List.map_map]; rfl
  have h2 : acc2.map (fun o => o.departureTime) =
      (acc2.map scrubLive).map (fun o => o.departureTime) := by
    rw [List.map_map]; rfl
  rw [h1, h2, hacc]

/-- Up to `live_updated_at`, the inner journey loop reads the clock only
through the current date. -/
theorem processJourneys_same_day (ar : List Arrival) (num : Nat)
    (now1 now2 : PyDateTime) (h : now1.day = now2.day) (js : List InJourney)
    (acc1 acc2 : List OutJourney)
    (hacc : acc1.map scrubLive = acc2.map scrubLive) :
    (processJourneys ar now1 num js acc1).map scrubLive =
      (processJourneys ar now2 num js acc2).map scrubLive := by
  induction js generalizing acc1 acc2 with
  | nil => simpa [processJourneys] using hacc
  | cons j rest ih =>
    have hlen : acc1.length = acc2.length := by
      have := congrArg List.length hacc
      simpa using this
    have hdT := map_dep_eq_of_map_scrub_eq acc1 acc2 hacc
    simp only [processJourneys]
    by_cases hc : check_journey_via_clapham j = true
    · rw [if_pos hc, if_pos hc]
      rw [any_dep_eq_of_map_eq acc1 acc2
        (format_time (parse_datetime j.startDateTime)) hdT]
      by_cases hany : (acc2.any fun o => o.departureTime ==
          format_time (parse_datetime j.startDateTime)) = true
      · rw [if_pos hany, if_pos hany]
        exact ih acc1 acc2 hacc
      · rw [if_neg hany, if_neg hany]
        rw [hlen]
        have hpj := process_journey_same_day ar j (acc2.length + 1) now1 now2 h
        cases hp1 : process_journey ar now1 j (acc2.length + 1) with
        | error e1 =>
          rw [hp1] at hpj
          cases hp2 : process_journey ar now2 j (acc2.length + 1) with
          | error e2 => exact ih acc1 acc2 hacc
          | ok o2 => rw [hp2] at hpj; simp [Except.map] at hpj
        | ok o1 =>
          rw [hp1] at hpj
          cases hp2 : process_journey ar now2 j (acc2.length + 1) with
          | error e2 => rw [hp2] at hpj; simp [Except.map] at hpj
          | ok o2 =>
            rw [hp2] at hpj
            simp only [Except.map, Except.ok.injEq] at hpj
            cases o1 with
            | none =>
              cases o2 with
              | none => exact ih acc1 acc2 hacc
              | some pj2 => simp at hpj
            | some pj1 =>
              cases o2 with
              | none => simp at hpj
              | some pj2 =>
                simp only [Option.map_some', Option.some.injEq] at hpj
                have hacc2' : (acc1 ++ [pj1]).map scrubLive =
                    (acc2 ++ [pj2]).map scrubLive := by
                  simp [hacc, hpj]
                have hlen2 : (acc1 ++ [pj1]).length = (acc2 ++ [pj2]).length := by
                  simp [hlen]
                show (if num ≤ (acc1 ++ [pj1]).length then acc1 ++ [pj1]
                    else processJourneys ar now1 num rest (acc1 ++ [pj1])).map scrubLive =
                  (if num ≤ (acc2 ++ [pj2]).length then acc2 ++ [pj2]
                    else processJourneys ar now2 num rest (acc2 ++ [pj2])).map scrubLive
                rw [hlen2]
                by_cases hl : num ≤ (acc2 ++ [pj2]).length
                · rw [if_pos hl, if_pos hl]
                  exact hacc2'
                · rw [if_neg hl, if_neg hl]
                  exact ih _ _ hacc2'
    · rw [if_neg hc, if_neg hc]
      exact ih acc1 acc2 hacc

/-- Up to `live_updated_at`, the offset loop reads the clock only through
the current date. -/
theorem fetchLoop_same_day (gp : Nat → FetchResult) (ar : List Arrival)
    (num : Nat) (now1 now2 : PyDateTime) (h : now1.day = now2.day)
    (offs : List Nat) (acc1 acc2 : List OutJourney)
    (hacc : acc1.map scrubLive = acc2.map scrubLive) :
    (fetchLoop gp ar now1 num offs acc1).map scrubLive =
      (fetchLoop gp ar now2 num offs acc2).map scrubLive := by
  induction offs generalizing acc1 acc2 with
  | nil => simpa [fetchLoop] using hacc
  | cons off rest ih =>
    rw [fetchLoop, fetchLoop]
    cases hg : gp off with
    | ok js =>
      have h2 := processJourneys_same_day ar num now1 now2 h js acc1 acc2 hacc
      have hlen2 : (processJourneys ar now1 num js acc1).length =
          (processJourneys ar now2 num js acc2).length := by
        have := congrArg List.length h2
        simpa using this
      show (if num ≤ (processJourneys ar now1 num js acc1).length
          then processJourneys ar now1 num js acc1
          else fetchLoop gp ar now1 num rest
            (processJourneys ar now1 num js acc1)).map scrubLive =
        (if num ≤ (processJourneys ar now2 num js acc2).length
          then processJourneys ar now2 num js acc2
          else fetchLoop gp ar now2 num rest
            (processJourneys ar now2 num js acc2)).map scrubLive
      rw [hlen2]
      by_cases hl : num ≤ (processJourneys ar now2 num js acc2).length
      · rw [if_pos hl, if_pos hl]
        exact h2
      · rw [if_neg hl, if_neg hl]
        exact ih _ _ h2
    | failed => exact ih acc1 acc2 hacc
    | noJourneysKey => exact ih acc1 acc2 hacc

/-- Renumbering respects scrubbed-projection equality. -/
theorem renumberFrom_map_scrub (k : Nat) (l1 l2 : List OutJourney)
    (h : l1.map scrubLive = l2.map scrubLive) :
    (renumberFrom k l1).map scrubLive = (renumberFrom k l2).map scrubLive := by
  induction l1 generalizing l2 k with
  | nil =>
    cases l2 with
    | nil => rfl
    | cons b bs => simp at h
  | cons a as ih =>
    cases l2 with
    | nil => simp at h
    | cons b bs =>
      simp only [List.map_cons, List.cons.injEq] at h
      simp only [renumberFrom, List.map_cons, List.cons.injEq]
      constructor
      · calc scrubLive { a with id := k } = { scrubLive a with id := k } := rfl
          _ = { scrubLive b with id := k } := by rw [h.1]
          _ = scrubLive { b with id := k } := rfl
      · exact ih (k + 1) bs h.2

/-- Renumbering preserves length. -/
theorem renumberFrom_length (k : Nat) (l : List OutJourney) :
    (renumberFrom k l).length = l.length := by
  induction l generalizing k with
  | nil => rfl
  | cons j rest ih => simp [renumberFrom, ih]

/-- The ids of the renumbered list are consecutive from `k`. -/
theorem renumberFrom_map_id (k : Nat) (l : List OutJourney) :
    (renumberFrom k l).map (fun o => o.id) = List.range' k l.length := by
  induction l generalizing k with
  | nil => rfl
  | cons j rest ih =>
    simp only [renumberFrom, List.map_cons, List.length_cons]
    rw [show List.range' k (rest.length + 1) =
      k :: List.range' (k + 1) rest.length from rfl]
    rw [ih (k + 1)]

/-- C8 amended: two runs over identical upstream data that also share the
same current date produce identical outputs except for the
`live_updated_at` field, and the ids of any output are the 1-based sequence
1..n in order; runs on different dates may additionally differ in looked-up
platform fields, because the live-arrivals match is anchored to the current
date. -/
theorem C8_same_day_deterministic
    (gp : Nat → FetchResult) (ar : List Arrival) (n : Nat)
    (now1 now2 : PyDateTime) (h : now1.day = now2.day) :
    (fetch_and_process_tfl_data gp ar now1 n).map scrubLive =
      (fetch_and_process_tfl_data gp ar now2 n).map scrubLive ∧
    (fetch_and_process_tfl_data gp ar now1 n).map (fun o => o.id) =
      List.range' 1 (fetch_and_process_tfl_data gp ar now1 n).length := by
  constructor
  · unfold fetch_and_process_tfl_data
    exact renumberFrom_map_scrub 1 _ _
      (fetchLoop_same_day gp ar n now1 now2 h [0, 15, 30] [] [] rfl)
  · unfold fetch_and_process_tfl_data
    rw [renumberFrom_map_id, renumberFrom_length]

/-- A C8 first leg with no platform in the instruction text and no
`routeOptions`, forcing the live-arrivals lookup with line "Southern". -/
def c8_leg1 : InLeg :=
  ⟨"national-rail", some (DtStr.valid ⟨0, 10, 0, 0, false⟩),
    some (DtStr.valid ⟨0, 10, 10, 0, false⟩),
    "Towards Clapham Junction", none, [], false, false⟩

def c8_leg2 : InLeg :=
  ⟨"overground", some (DtStr.valid ⟨0, 10, 15, 0, false⟩),
    some (DtStr.valid ⟨0, 10, 30, 0, false⟩),
    "Platform 2 towards Imperial Wharf", some [⟨some "London Overground"⟩],
    [], false, false⟩

def c8_journey : InJourney :=
  ⟨some (DtStr.valid ⟨0, 10, 0, 0, false⟩), some (DtStr.valid ⟨0, 10, 30, 0, false⟩),
    some 30, [c8_leg1, c8_leg2]⟩

/-- A live arrival on day 0 at 10:10, naive time, with platform 5. -/
def c8_arrivals : List Arrival :=
  [⟨"Southern", some (DtStr.valid ⟨0, 10, 10, 0, false⟩), "Platform 5"⟩]

def c8_gp : Nat → FetchResult :=
  fun o => if o == 0 then FetchResult.ok [c8_journey] else FetchResult.failed

/-- A run clock on day 0. -/
def c8_nowA : PyDateTime := ⟨0, 12, 0, 0, false⟩

/-- A run clock on day 1, same time of day. -/
def c8_nowB : PyDateTime := ⟨1, 12, 0, 0, false⟩

/-- C8 counterexample: two runs over identical upstream data (same journey
response, same arrivals feed) made on different dates disagree on the
looked-up arrivalPlatform ("5" on day 0, "TBC" on day 1), so the outputs
differ in a field other than live_updated_at. -/
theorem C8_different_day_cex :
    (fetch_and_process_tfl_data c8_gp c8_arrivals c8_nowA 3).map scrubLive ≠
      (fetch_and_process_tfl_data c8_gp c8_arrivals c8_nowB 3).map scrubLive :=
  by decide

/-- A same-day morning clock. -/
def c8_nowC : PyDateTime := ⟨0, 9, 0, 0, false⟩

/-- A same-day afternoon clock. -/
def c8_nowD : PyDateTime := ⟨0, 15, 30, 45, false⟩

/-- C8 witness: the amended statement evaluated on two same-day clocks. -/
theorem C8_same_day_deterministic_witness :
    c8_nowC.day = c8_nowD.day ∧
    ((fetch_and_process_tfl_data c8_gp c8_arrivals c8_nowC 3).map scrubLive =
      (fetch_and_process_tfl_data c8_gp c8_arrivals c8_nowD 3).map scrubLive ∧
    (fetch_and_process_tfl_data c8_gp c8_arrivals c8_nowC 3).map (fun o => o.id) =
      List.range' 1 (fetch_and_process_tfl_data c8_gp c8_arrivals c8_nowC 3).length) :=
  ⟨by decide, C8_same_day_deterministic c8_gp c8_arrivals 3 c8_nowC c8_nowD (by decide)⟩
